import Mathlib

/-
Verification of the metrics-derivation layer of an Artillery load-test
results viewer.  The TypeScript sources under `src/` are shallowly embedded:
JSON numbers are modelled as rationals, string-keyed JSON objects as
association lists in insertion order, and the few JavaScript idioms that
matter (`x || d` falsiness, `?.` optional chaining, `Array.prototype.sort`
with a comparator) are modelled explicitly.
-/

namespace ALTRV

/-- JavaScript numeric `x || d`: `0` is falsy, every other number is truthy. -/
def jsOr (x d : ℚ) : ℚ := if x = 0 then d else x

/-- JavaScript `o?.f || d` for an optional numeric field: `none` models an
absent object, and a present value of `0` still falls through to `d`. -/
def optOr (x : Option ℚ) (d : ℚ) : ℚ :=
  match x with
  | none => d
  | some v => if v = 0 then d else v

/-- JavaScript `key.startsWith(pre)`, realized on character lists. -/
def strStarts (s pre : String) : Bool := List.isPrefixOf pre.toList s.toList

/-- Contiguous-subsequence containment on character lists. -/
def containsSeq (sub : List Char) : List Char → Bool
  | [] => sub.isEmpty
  | c :: t => List.isPrefixOf sub (c :: t) || containsSeq sub t

/-- JavaScript `s.includes(sub)`. -/
def jsIncludes (s sub : String) : Bool := containsSeq sub.toList s.toList

/-- The per-metric statistics record (`SummaryStats` in `src/types/artillery.ts`). -/
structure SummaryStats where
  min : ℚ
  max : ℚ
  count : ℚ
  mean : ℚ
  p50 : ℚ
  median : ℚ
  p75 : ℚ
  p90 : ℚ
  p95 : ℚ
  p99 : ℚ
  p999 : ℚ
deriving DecidableEq

/-- One interval or aggregate record (`LogEntry` in `src/types/artillery.ts`).
Only the fields the derivation layer reads are embedded; the string-keyed
objects `counters`, `rates`, `summaries` and `histograms` become association
lists in object-insertion order (the order `Object.keys`/`Object.entries`
iterate in). -/
structure LogEntry where
  counters : List (String × ℚ)
  rates : List (String × ℚ)
  firstCounterAt : ℚ
  lastCounterAt : ℚ
  summaries : List (String × SummaryStats)
  histograms : List (String × SummaryStats)
deriving DecidableEq

/-- The root results document (`ArtilleryLog` in `src/types/artillery.ts`);
test id and metadata are irrelevant to the derivation layer and omitted. -/
structure ArtilleryLog where
  intermediate : List LogEntry
  aggregate : LogEntry
deriving DecidableEq

/-- JavaScript `entry.counters[name] || 0`. -/
def counterOr0 (e : LogEntry) (name : String) : ℚ := (e.counters.lookup name).getD 0

/-- `isBrowserData` as computed in `KeyMetricsSummary.tsx` line 15 and
`AdditionalPanels.tsx` line 14: some counter key of the aggregate record
starts with `browser.` (the `aggregate.counters &&` guard is always truthy
for a well-formed log and is dropped). -/
def isBrowserDataAgg (log : ArtilleryLog) : Bool :=
  (log.aggregate.counters.map Prod.fst).any (fun key => strStarts key "browser.")

/-- `isBrowserData` as computed in `ChartsSection.tsx` lines 16-18: some
interval record has a counter key starting with `browser.`. -/
def isBrowserDataInt (log : ArtilleryLog) : Bool :=
  log.intermediate.any (fun entry =>
    (entry.counters.map Prod.fst).any (fun key => strStarts key "browser."))

/-- The Apdex rating enumeration (`ApdexRating` in `src/types/artillery.ts`). -/
inductive ApdexRating where
  | satisfied
  | tolerated
  | frustrated
deriving DecidableEq

/-- `getApdexRating` from `KeyMetricsSummary.tsx` lines 65-70. -/
def getApdexRating (isBrowserData : Bool) (p95 : ℚ) : ApdexRating :=
  let threshold : ℚ := if isBrowserData then 100 else 150
  if p95 < threshold then .satisfied
  else if p95 ≤ threshold * 3 then .tolerated
  else .frustrated

/-- `passFailThreshold` from `KeyMetricsSummary.tsx` line 75. -/
def passFailThreshold (isBrowserData : Bool) : ℚ := if isBrowserData then 200 else 300

/-- `apdexThreshold` from `KeyMetricsSummary.tsx` line 76. -/
def apdexThreshold (isBrowserData : Bool) : ℚ := if isBrowserData then 100 else 150

/-- `isPassFail` from `KeyMetricsSummary.tsx` line 77. -/
def isPassFail (isBrowserData : Bool) (p95 p99 : ℚ) : Bool :=
  decide (p99 < passFailThreshold isBrowserData) &&
    decide (p95 < apdexThreshold isBrowserData)

/-- `calculatePeriodSeconds` from `ChartsSection.tsx` lines 21-24. -/
def calculatePeriodSeconds (entry : LogEntry) : ℚ :=
  max ((entry.lastCounterAt - entry.firstCounterAt) / 1000) 1

/-- C1: the pass/fail verdict is PASS exactly when p99 is strictly below the
pass/fail threshold (200 browser / 300 protocol) and p95 is strictly below
the Apdex threshold (100 browser / 150 protocol); a protocol run with
p99 = 299 and p95 = 149 passes, and any run with p99 at or above its
threshold fails regardless of p95. -/
theorem passFail_verdict_iff_both_thresholds :
    (∀ (isB : Bool) (p95 p99 : ℚ),
      isPassFail isB p95 p99 = true ↔
        (p99 < (if isB then (200 : ℚ) else 300) ∧ p95 < (if isB then (100 : ℚ) else 150)))
    ∧ isPassFail false 149 299 = true
    ∧ (∀ (isB : Bool) (p95 p99 : ℚ),
      isPassFail isB p95 p99 = false ↔
        ((if isB then (200 : ℚ) else 300) ≤ p99 ∨ (if isB then (100 : ℚ) else 150) ≤ p95)) := by
  refine ⟨?_, ?_, ?_⟩
  · intro isB p95 p99
    simp [isPassFail, passFailThreshold, apdexThreshold]
  · norm_num [isPassFail, passFailThreshold, apdexThreshold]
  · intro isB p95 p99
    simp [isPassFail, passFailThreshold, apdexThreshold, or_iff_not_imp_left, not_le]

/-- C2: the Apdex rating is `satisfied` iff p95 < threshold, `tolerated` iff
threshold ≤ p95 ≤ 3 × threshold, and `frustrated` otherwise, with threshold
100 under browser classification and 150 otherwise; browser p95 = 99 rates
satisfied, p95 = 100 tolerated, p95 = 301 frustrated. -/
theorem apdexRating_step_function :
    (∀ (isB : Bool) (p95 : ℚ),
      let t : ℚ := if isB then 100 else 150
      (getApdexRating isB p95 = .satisfied ↔ p95 < t)
      ∧ (getApdexRating isB p95 = .tolerated ↔ t ≤ p95 ∧ p95 ≤ 3 * t)
      ∧ (getApdexRating isB p95 = .frustrated ↔ 3 * t < p95))
    ∧ getApdexRating true 99 = .satisfied
    ∧ getApdexRating true 100 = .tolerated
    ∧ getApdexRating true 301 = .frustrated := by
  refine ⟨?_, ?_, ?_, ?_⟩
  · intro isB p95 t
    have h3 : (if isB then (100 : ℚ) else 150) * 3 = 3 * t := by
      simp only [t]; ring
    unfold getApdexRating
    simp only [h3]
    refine ⟨?_, ?_, ?_⟩
    · split_ifs with h1 h2 <;> simp_all [t]
    · split_ifs with h1 h2 <;> simp_all [t]
    · split_ifs with h1 h2 <;> simp_all [t] <;> linarith
  · norm_num [getApdexRating]
  · norm_num [getApdexRating]
  · norm_num [getApdexRating]

/-- C9: the derived period in seconds equals
max((lastCounterAt - firstCounterAt)/1000, 1) and is always at least 1, even
when the two timestamps coincide, so dividing a rate by it never divides by
zero. -/
theorem periodSeconds_formula_and_floor :
    ∀ entry : LogEntry,
      calculatePeriodSeconds entry
          = max ((entry.lastCounterAt - entry.firstCounterAt) / 1000) 1
      ∧ 1 ≤ calculatePeriodSeconds entry
      ∧ calculatePeriodSeconds { entry with lastCounterAt := entry.firstCounterAt } = 1 := by
  intro entry
  refine ⟨rfl, le_max_right _ _, ?_⟩
  simp [calculatePeriodSeconds]

/-- C5: each log classifier returns true iff at least one counter key in its
scope starts with `browser.` — the aggregate record for the summary/panel
classifier, any interval record for the charts classifier — and returns
false (not an error) when no such key exists. -/
theorem browser_classifier_iff_browser_key :
    ∀ log : ArtilleryLog,
      (isBrowserDataAgg log = true ↔
        ∃ kv ∈ log.aggregate.counters, strStarts kv.1 "browser." = true)
      ∧ (isBrowserDataInt log = true ↔
        ∃ e ∈ log.intermediate, ∃ kv ∈ e.counters, strStarts kv.1 "browser." = true) := by
  intro log
  constructor
  · simp [isBrowserDataAgg, List.any_eq_true]
  · simp [isBrowserDataInt, List.any_eq_true]

/-- The `matchingKeys` filter inside `findBrowserMetric`
(`ChartsSection.tsx` lines 28-30): summary keys starting with
`browser.page.<metricType>.`. -/
def matchingSummaryKeys (entry : LogEntry) (metricType : String) : List String :=
  (entry.summaries.map Prod.fst).filter
    (fun key => strStarts key ("browser.page." ++ metricType ++ "."))

/-- `findBrowserMetric` from `ChartsSection.tsx` lines 27-47: count-weighted
average of the requested percentile over all summary keys of the metric
family, 0 when no key matches or the accumulated count is not positive.  The
`stats && stats[percentile] !== undefined` guard of the source corresponds
to the `some` branch of the lookup; the `forEach` accumulation of
`totalValue`/`totalCount` becomes a fold over a pair. -/
def findBrowserMetric (entry : LogEntry) (metricType : String)
    (pct : SummaryStats → ℚ) : ℚ :=
  let matchingKeys := matchingSummaryKeys entry metricType
  if matchingKeys.isEmpty then 0
  else
    let totals := matchingKeys.foldl (fun (acc : ℚ × ℚ) key =>
      match entry.summaries.lookup key with
      | some stats => (acc.1 + pct stats * stats.count, acc.2 + stats.count)
      | none => acc) (0, 0)
    if 0 < totals.2 then totals.1 / totals.2 else 0

/-- Stated from the words of the specification for claim C3 (refinement
comparison): "sum(stat[percentile] * stat.count) / sum(stat.count)" over the
summary keys matching `browser.page.TTFB.*`, "0 if no matching keys or zero
total count". -/
def specWeightedTTFB (entry : LogEntry) (pct : SummaryStats → ℚ) : ℚ :=
  let ks := matchingSummaryKeys entry "TTFB"
  let tv := (ks.map (fun k => match entry.summaries.lookup k with
    | some s => pct s * s.count
    | none => 0)).sum
  let tc := (ks.map (fun k => match entry.summaries.lookup k with
    | some s => s.count
    | none => 0)).sum
  if ks.isEmpty ∨ tc = 0 then 0 else tv / tc

/-- The common shape of the four time-series response-time fields
`responseTimeP50/P95/P99/Max` of `allTimeSeriesData` (`ChartsSection.tsx`
lines 85-88): `findBrowserMetric(entry, "TTFB", p) ||
entry.summaries["http.response_time"]?.p || 0`. -/
def responseTimePct (entry : LogEntry) (pct : SummaryStats → ℚ) : ℚ :=
  jsOr (findBrowserMetric entry "TTFB" pct)
    (optOr ((entry.summaries.lookup "http.response_time").map pct) 0)

/-- Running total of a counter over the interval records up to and including
`index` (`ChartsSection.tsx` lines 60-62: `slice(0, index + 1)` followed by
`reduce` with `|| 0` defaulting). -/
def cumulativeCounter (log : ArtilleryLog) (name : String) (index : Nat) : ℚ :=
  (log.intermediate.take (index + 1)).foldl (fun sum e => sum + counterOr0 e name) 0

/-- `vusConcurrent` from `ChartsSection.tsx` line 77. -/
def vusConcurrent (log : ArtilleryLog) (index : Nat) : ℚ :=
  max 0 (cumulativeCounter log "vusers.created" index
    - cumulativeCounter log "vusers.completed" index
    - cumulativeCounter log "vusers.failed" index)

lemma foldl_add_eq_sum {α : Type} (f : α → ℚ) (l : List α) (a : ℚ) :
    l.foldl (fun s x => s + f x) a = a + (l.map f).sum := by
  induction l generalizing a with
  | nil => simp
  | cons x t ih => simp [ih, add_assoc]

lemma fbm_fold_eq (e : LogEntry) (pct : SummaryStats → ℚ) (ks : List String) (a b : ℚ) :
    ks.foldl (fun (acc : ℚ × ℚ) key =>
        match e.summaries.lookup key with
        | some stats => (acc.1 + pct stats * stats.count, acc.2 + stats.count)
        | none => acc) (a, b)
      = (a + (ks.map (fun k => match e.summaries.lookup k with
            | some s => pct s * s.count
            | none => 0)).sum,
         b + (ks.map (fun k => match e.summaries.lookup k with
            | some s => s.count
            | none => 0)).sum) := by
  induction ks generalizing a b with
  | nil => simp
  | cons k t ih =>
    cases h : e.summaries.lookup k <;> simp [h, ih, add_assoc]

lemma mem_of_lookup_some {α β : Type} [BEq α] [LawfulBEq α]
    {l : List (α × β)} {k : α} {s : β} (h : l.lookup k = some s) : (k, s) ∈ l := by
  obtain ⟨l₁, l₂, rfl, -⟩ := List.lookup_eq_some_iff.mp h
  simp

lemma fbm_eq_specWeightedTTFB (e : LogEntry) (pct : SummaryStats → ℚ)
    (hpos : ∀ kv ∈ e.summaries, 0 ≤ kv.2.count) :
    findBrowserMetric e "TTFB" pct = specWeightedTTFB e pct := by
  have hfold := fbm_fold_eq e pct (matchingSummaryKeys e "TTFB") 0 0
  rw [show ((0, 0) : ℚ × ℚ) = 0 from rfl, zero_add, zero_add] at hfold
  have htc : 0 ≤ ((matchingSummaryKeys e "TTFB").map (fun k =>
      match e.summaries.lookup k with
      | some s => s.count
      | none => 0)).sum := by
    apply List.sum_nonneg
    intro x hx
    obtain ⟨k, hk, rfl⟩ := List.mem_map.mp hx
    cases h : e.summaries.lookup k with
    | none => simp
    | some s =>
      have := hpos (k, s) (mem_of_lookup_some h)
      simpa using this
  by_cases hemp : (matchingSummaryKeys e "TTFB").isEmpty
  · simp [findBrowserMetric, specWeightedTTFB, hemp]
  · by_cases hz : ((matchingSummaryKeys e "TTFB").map (fun k =>
      match e.summaries.lookup k with
      | some s => s.count
      | none => 0)).sum = 0
    · simp [findBrowserMetric, specWeightedTTFB, hemp, hz, hfold]
    · have hlt : 0 < ((matchingSummaryKeys e "TTFB").map (fun k =>
        match e.summaries.lookup k with
        | some s => s.count
        | none => 0)).sum := lt_of_le_of_ne htc (Ne.symm hz)
      simp [findBrowserMetric, specWeightedTTFB, hemp, hz, hlt, hfold]

/-- C6: the derived concurrent-users value at each row index equals
max(0, cumulativeCreated - cumulativeCompleted - cumulativeFailed), the
cumulative totals summing the corresponding vusers counters over all rows up
to and including that index, and it is never negative. -/
theorem concurrentUsers_cumulative_clamped (log : ArtilleryLog) (index : Nat) :
    vusConcurrent log index
      = max 0 (((log.intermediate.take (index + 1)).map
            (fun e => counterOr0 e "vusers.created")).sum
          - ((log.intermediate.take (index + 1)).map
            (fun e => counterOr0 e "vusers.completed")).sum
          - ((log.intermediate.take (index + 1)).map
            (fun e => counterOr0 e "vusers.failed")).sum)
    ∧ 0 ≤ vusConcurrent log index := by
  constructor
  · unfold vusConcurrent cumulativeCounter
    rw [foldl_add_eq_sum, foldl_add_eq_sum, foldl_add_eq_sum]
    simp
  · exact le_max_left _ _

/-- A statistics record with every field equal to `v` except `count = c`;
used to build concrete example logs. -/
def statsAll (v c : ℚ) : SummaryStats := ⟨v, v, c, v, v, v, v, v, v, v, v⟩

/-- A record carrying no metrics at all. -/
def emptyEntry : LogEntry := ⟨[], [], 0, 0, [], []⟩

/-- Interval record with a single `browser.page.TTFB.*` summary key whose
count is 0 and whose percentile values are 50. -/
def exEntryC4 : LogEntry :=
  ⟨[], [], 0, 0, [("browser.page.TTFB.pageA", statsAll 50 0)], []⟩

/-- Interval record with a single `browser.page.TTFB.*` summary key of
count 1 and percentile values 7. -/
def exEntryC4w : LogEntry :=
  ⟨[], [], 0, 0, [("browser.page.TTFB.pageA", statsAll 7 1)], []⟩

/-- C4 counterexample: exactly one summary key matches the TTFB family, its
raw p95 is 50, yet the aggregation returns 0 because the count of the single
key is 0 — the weight-of-one identity fails for a zero-count key. -/
theorem weighted_average_single_key_counterexample :
    matchingSummaryKeys exEntryC4 "TTFB" = ["browser.page.TTFB.pageA"]
    ∧ exEntryC4.summaries.lookup "browser.page.TTFB.pageA" = some (statsAll 50 0)
    ∧ (statsAll 50 0).p95 = 50
    ∧ findBrowserMetric exEntryC4 "TTFB" (fun s => s.p95) = 0
    ∧ (0 : ℚ) ≠ 50 := by
  have hk : matchingSummaryKeys exEntryC4 "TTFB" = ["browser.page.TTFB.pageA"] := by decide
  have hs : exEntryC4.summaries.lookup "browser.page.TTFB.pageA" = some (statsAll 50 0) := by
    decide
  refine ⟨hk, hs, rfl, ?_, by norm_num⟩
  simp only [findBrowserMetric, hk, List.isEmpty_cons, List.foldl_cons, List.foldl_nil, hs]
  norm_num [statsAll]

/-- C4 (amended): the weighted-average aggregation over a metric family
returns 0 when zero summary keys match the family, and when exactly one key
matches and that key carries a positive count it returns the raw percentile
value of that key unchanged (weight-of-one identity); a single matching key
with count 0 yields 0 instead. -/
theorem weighted_average_empty_and_single_key (entry : LogEntry) (mt : String)
    (pct : SummaryStats → ℚ) :
    (matchingSummaryKeys entry mt = [] → findBrowserMetric entry mt pct = 0)
    ∧ (∀ k s, matchingSummaryKeys entry mt = [k] →
        entry.summaries.lookup k = some s → 0 < s.count →
        findBrowserMetric entry mt pct = pct s) := by
  constructor
  · intro h
    simp [findBrowserMetric, h]
  · intro k s hk hs hc
    simp only [findBrowserMetric, hk, List.isEmpty_cons, List.foldl_cons, List.foldl_nil, hs]
    rw [show ((0, 0) : ℚ × ℚ).1 + pct s * s.count = pct s * s.count by ring]
    rw [show ((0, 0) : ℚ × ℚ).2 + s.count = s.count by ring]
    simp only [Bool.false_eq_true, if_false, hc, if_pos]
    rw [mul_div_assoc, div_self (ne_of_gt hc), mul_one]

/-- C4 witness: the amended theorem applied at concrete records — an entry
with no matching key yields 0, an entry with a single matching key of count
1 and p95 = 7 yields 7. -/
theorem weighted_average_empty_and_single_key_witness :
    findBrowserMetric emptyEntry "TTFB" (fun s => s.p95) = 0
    ∧ findBrowserMetric exEntryC4w "TTFB" (fun s => s.p95) = (statsAll 7 1).p95 :=
  ⟨(weighted_average_empty_and_single_key emptyEntry "TTFB" (fun s => s.p95)).1 (by decide),
   (weighted_average_empty_and_single_key exEntryC4w "TTFB" (fun s => s.p95)).2
     "browser.page.TTFB.pageA" (statsAll 7 1) (by decide) (by decide) (by decide)⟩

/-- Interval record that is browser-classified (it has a `browser.*` counter)
but has no TTFB summary, only `http.response_time` with all percentiles 42. -/
def exEntryC3 : LogEntry :=
  ⟨[("browser.http_requests", 1)], [], 0, 0, [("http.response_time", statsAll 42 1)], []⟩

/-- Log whose single interval record is `exEntryC3`. -/
def exLogC3 : ArtilleryLog := ⟨[exEntryC3], emptyEntry⟩

/-- C3 counterexample: `exLogC3` is browser-classified by the ChartsSection
classifier, its interval record has no `browser.page.TTFB.*` summary key, so
the claim predicts a time-series response-time percentile of 0; the code
instead falls back to `summaries["http.response_time"]` and yields 42. -/
theorem responseTime_browser_fallback_counterexample :
    isBrowserDataInt exLogC3 = true
    ∧ exEntryC3 ∈ exLogC3.intermediate
    ∧ specWeightedTTFB exEntryC3 (fun s => s.p50) = 0
    ∧ responseTimePct exEntryC3 (fun s => s.p50) = 42
    ∧ responseTimePct exEntryC3 (fun s => s.p50)
        ≠ specWeightedTTFB exEntryC3 (fun s => s.p50) := by
  have hemp : matchingSummaryKeys exEntryC3 "TTFB" = [] := by decide
  have hspec : specWeightedTTFB exEntryC3 (fun s => s.p50) = 0 := by
    simp [specWeightedTTFB, hemp]
  have hlook : exEntryC3.summaries.lookup "http.response_time" = some (statsAll 42 1) := by
    decide
  have hfbm : findBrowserMetric exEntryC3 "TTFB" (fun s => s.p50) = 0 := by
    simp [findBrowserMetric, hemp]
  have hrt : responseTimePct exEntryC3 (fun s => s.p50) = 42 := by
    simp only [responseTimePct, hfbm, jsOr, optOr, hlook, Option.map_some]
    norm_num [statsAll]
  exact ⟨by decide, by simp [exLogC3], hspec, hrt, by rw [hrt, hspec]; norm_num⟩

/-- C3 (amended): for every interval record with nonnegative summary counts,
each time-series response-time percentile equals the count-weighted TTFB
average when that average is nonzero, and otherwise falls back to the
`http.response_time` percentile (0 when absent or zero) — independently of
the classification flag. -/
theorem responseTimePct_weighted_or_fallback (entry : LogEntry)
    (pct : SummaryStats → ℚ) (hpos : ∀ kv ∈ entry.summaries, 0 ≤ kv.2.count) :
    responseTimePct entry pct =
      (if specWeightedTTFB entry pct ≠ 0 then specWeightedTTFB entry pct
       else optOr ((entry.summaries.lookup "http.response_time").map pct) 0) := by
  unfold responseTimePct jsOr
  rw [fbm_eq_specWeightedTTFB entry pct hpos]
  by_cases h : specWeightedTTFB entry pct = 0 <;> simp [h]

/-- C3 witness: the amended theorem applied at the concrete record
`exEntryC3`, whose only summary count is 1. -/
theorem responseTimePct_weighted_or_fallback_witness :
    responseTimePct exEntryC3 (fun s => s.p50) =
      (if specWeightedTTFB exEntryC3 (fun s => s.p50) ≠ 0
       then specWeightedTTFB exEntryC3 (fun s => s.p50)
       else optOr ((exEntryC3.summaries.lookup "http.response_time").map
         (fun s => s.p50)) 0) :=
  responseTimePct_weighted_or_fallback exEntryC3 (fun s => s.p50) (by decide)

/-- The TTFB summary keys of the aggregate record, in object-iteration order
(`ttfbKeys` in `KeyMetricsSummary.tsx` line 51). -/
def ttfbKeys (e : LogEntry) : List String :=
  (e.summaries.map Prod.fst).filter (fun key => strStarts key "browser.page.TTFB.")

/-- `responseTimeStats` from `KeyMetricsSummary.tsx` lines 44-58: under
browser classification the summary of the first TTFB key found (undefined
when no TTFB key exists), otherwise `summaries["http.response_time"]`. -/
def responseTimeStats (log : ArtilleryLog) : Option SummaryStats :=
  if isBrowserDataAgg log then
    match ttfbKeys log.aggregate with
    | [] => none
    | k :: _ => log.aggregate.summaries.lookup k
  else log.aggregate.summaries.lookup "http.response_time"

/-- `p95` from `KeyMetricsSummary.tsx` line 60: `responseTimeStats?.p95 || 0`. -/
def kmP95 (log : ArtilleryLog) : ℚ :=
  optOr ((responseTimeStats log).map (fun s => s.p95)) 0

/-- `p99` from `KeyMetricsSummary.tsx` line 61. -/
def kmP99 (log : ArtilleryLog) : ℚ :=
  optOr ((responseTimeStats log).map (fun s => s.p99)) 0

/-- `mean` from `KeyMetricsSummary.tsx` line 62. -/
def kmMean (log : ArtilleryLog) : ℚ :=
  optOr ((responseTimeStats log).map (fun s => s.mean)) 0

/-- C10: in the key-metrics summary under browser classification, the
response-time statistics fed to Apdex and pass/fail come from the single
first summary key starting with `browser.page.TTFB.` in iteration order —
not a weighted average — and are all 0 when no such key exists. -/
theorem keyMetrics_first_ttfb_key (log : ArtilleryLog)
    (hb : isBrowserDataAgg log = true) :
    (ttfbKeys log.aggregate = [] → kmP95 log = 0 ∧ kmP99 log = 0 ∧ kmMean log = 0)
    ∧ (∀ k ks s, ttfbKeys log.aggregate = k :: ks →
        log.aggregate.summaries.lookup k = some s →
        kmP95 log = s.p95 ∧ kmP99 log = s.p99 ∧ kmMean log = s.mean) := by
  constructor
  · intro h
    simp [kmP95, kmP99, kmMean, responseTimeStats, hb, h, optOr]
  · intro k ks s hk hs
    simp only [kmP95, kmP99, kmMean, responseTimeStats, hb, if_true, hk, hs,
      Option.map_some, optOr]
    refine ⟨?_, ?_, ?_⟩ <;> split <;> simp_all

/-- Aggregate-only log with one browser counter and one TTFB summary key of
count 1 and percentile values 7. -/
def exLogC10 : ArtilleryLog :=
  ⟨[], ⟨[("browser.http_requests", 1)], [], 0, 0,
    [("browser.page.TTFB.pageA", statsAll 7 1)], []⟩⟩

/-- C10 witness: the theorem applied at the concrete browser log with a
single TTFB key. -/
theorem keyMetrics_first_ttfb_key_witness :
    kmP95 exLogC10 = (statsAll 7 1).p95
    ∧ kmP99 exLogC10 = (statsAll 7 1).p99
    ∧ kmMean exLogC10 = (statsAll 7 1).mean :=
  (keyMetrics_first_ttfb_key exLogC10 (by decide)).2 "browser.page.TTFB.pageA" []
    (statsAll 7 1) (by decide) (by decide)

/-- One row of the request/URL breakdown table of `AdditionalPanels.tsx`. -/
structure UrlCount where
  url : String
  count : ℚ
deriving DecidableEq

/-- JavaScript `key.replace(pre, "")` for a key that starts with `pre`:
removal of the leading occurrence, realized by dropping its characters. -/
def stripLead (key pre : String) : String :=
  String.mk (key.toList.drop pre.toList.length)

/-- JavaScript `arr.sort((a, b) => b.count - a.count)` — a stable descending
sort by count. -/
def sortByCountDesc (l : List UrlCount) : List UrlCount :=
  l.mergeSort (fun a b => decide (b.count ≤ a.count))

/-- `urlRequestsData` from `AdditionalPanels.tsx` lines 50-72: under browser
classification the counters with the `browser.page.codes.` key-start, under
protocol classification the counters whose key starts with `http.requests.`
but not with `http.requests.total`, each stripped of the leading text and
sorted descending by count. -/
def urlRequestsData (log : ArtilleryLog) : List UrlCount :=
  if isBrowserDataAgg log then
    sortByCountDesc ((log.aggregate.counters.filter
        (fun kv => strStarts kv.1 "browser.page.codes.")).map
      (fun kv => ⟨stripLead kv.1 "browser.page.codes.", kv.2⟩))
  else
    sortByCountDesc ((log.aggregate.counters.filter
        (fun kv => strStarts kv.1 "http.requests."
          && !strStarts kv.1 "http.requests.total")).map
      (fun kv => ⟨stripLead kv.1 "http.requests.", kv.2⟩))

lemma mem_urlRequestsData (log : ArtilleryLog) (p : UrlCount) :
    p ∈ urlRequestsData log ↔
      (if isBrowserDataAgg log then
        ∃ kv ∈ log.aggregate.counters,
          strStarts kv.1 "browser.page.codes." = true
            ∧ p = ⟨stripLead kv.1 "browser.page.codes.", kv.2⟩
      else
        ∃ kv ∈ log.aggregate.counters,
          (strStarts kv.1 "http.requests." && !strStarts kv.1 "http.requests.total") = true
            ∧ p = ⟨stripLead kv.1 "http.requests.", kv.2⟩) := by
  unfold urlRequestsData sortByCountDesc
  split <;>
    · simp only [List.mem_mergeSort, List.mem_map, List.mem_filter]
      constructor
      · rintro ⟨kv, ⟨hmem, hq⟩, rfl⟩
        exact ⟨kv, hmem, hq, rfl⟩
      · rintro ⟨kv, hmem, hq, rfl⟩
        exact ⟨kv, ⟨hmem, hq⟩, rfl⟩

/-- C7 (amended): the URL/endpoint breakdown contains exactly the aggregate
counter keys with the branch key-start — under protocol classification the
keys starting with `http.requests.` except every key starting with
`http.requests.total` (not only the literal total key), under browser
classification the keys starting with `browser.page.codes.` — each mapped
to a pair with the leading text stripped off. -/
theorem urlRequests_membership (log : ArtilleryLog) (p : UrlCount) :
    (isBrowserDataAgg log = true →
      (p ∈ urlRequestsData log ↔ ∃ kv ∈ log.aggregate.counters,
        strStarts kv.1 "browser.page.codes." = true
          ∧ p = ⟨stripLead kv.1 "browser.page.codes.", kv.2⟩))
    ∧ (isBrowserDataAgg log = false →
      (p ∈ urlRequestsData log ↔ ∃ kv ∈ log.aggregate.counters,
        strStarts kv.1 "http.requests." = true
          ∧ strStarts kv.1 "http.requests.total" = false
          ∧ p = ⟨stripLead kv.1 "http.requests.", kv.2⟩)) := by
  have h := mem_urlRequestsData log p
  constructor
  · intro hb
    rw [if_pos hb] at h
    exact h
  · intro hb
    rw [if_neg (by simp [hb])] at h
    rw [h]
    constructor
    · rintro ⟨kv, hmem, hq, rfl⟩
      rcases (Bool.and_eq_true _ _).mp hq with ⟨h1, h2⟩
      exact ⟨kv, hmem, h1, by simpa using h2, rfl⟩
    · rintro ⟨kv, hmem, h1, h2, rfl⟩
      exact ⟨kv, hmem, by simp [h1, h2], rfl⟩

/-- Protocol log whose aggregate counters contain the literal total key, a
key that merely starts with `http.requests.total`, and an ordinary request
key. -/
def exLogC7 : ArtilleryLog :=
  ⟨[], ⟨[("http.requests.total", 10), ("http.requests.total_errors", 5),
    ("http.requests.GET /", 7)], [], 0, 0, [], []⟩⟩

/-- C7 counterexample: `http.requests.total_errors` is not the literal key
`http.requests.total`, so the claim predicts the pair (total_errors, 5) in
the protocol breakdown; the code excludes every key starting with
`http.requests.total` and drops it. -/
theorem urlRequests_literal_total_counterexample :
    isBrowserDataAgg exLogC7 = false
    ∧ ("http.requests.total_errors", (5 : ℚ)) ∈ exLogC7.aggregate.counters
    ∧ "http.requests.total_errors" ≠ "http.requests.total"
    ∧ strStarts "http.requests.total_errors" "http.requests." = true
    ∧ stripLead "http.requests.total_errors" "http.requests." = "total_errors"
    ∧ (⟨"total_errors", 5⟩ : UrlCount) ∉ urlRequestsData exLogC7 :=
  ⟨by decide, by decide, by decide, by decide, by decide,
   fun h => absurd ((mem_urlRequestsData exLogC7 ⟨"total_errors", 5⟩).mp h) (by decide)⟩

/-- C7 witness: the amended theorem applied at the concrete protocol log —
the stripped pair of the ordinary request key is in the breakdown. -/
theorem urlRequests_membership_witness :
    (⟨"GET /", 7⟩ : UrlCount) ∈ urlRequestsData exLogC7 :=
  ((urlRequests_membership exLogC7 ⟨"GET /", 7⟩).2 (by decide)).mpr
    ⟨("http.requests.GET /", 7), by decide, by decide, by decide, by decide⟩

/-- The key guard of the endpoint reducers (`ChartsSection.tsx` lines
215-216): the key mentions a page metric and embeds an absolute URL. -/
def pageUrlGuard (key : String) : Bool :=
  (jsIncludes key "browser.page." && jsIncludes key "https://")
    || (jsIncludes key "dominteractive" && jsIncludes key "https://")

/-- The regex match `https:\/\/[^\s]+` of `ChartsSection.tsx` line 218: the
first occurrence of `https://` followed by at least one non-whitespace
character, extended over the maximal run of non-whitespace characters. -/
def extractHttps (key : String) : Option String :=
  match key.splitOn "https://" with
  | [] => none
  | [_] => none
  | _ :: rest =>
    (List.range rest.length).findSome? (fun i =>
      let tail := (String.intercalate "https://" (rest.drop i)).takeWhile
        (fun c => !c.isWhitespace)
      if tail = "" then none else some ("https://" ++ tail))

/-- Accumulated per-endpoint latency row (`ChartsSection.tsx` lines
231-237). -/
structure EndpointAgg where
  endpoint : String
  count : ℚ
  avgResponseTime : ℚ
  totalResponseTime : ℚ
deriving DecidableEq

/-- Mutation of one accumulator row by one summary record
(`ChartsSection.tsx` lines 240-244): the count always grows by
`stats.count || 0`; when both mean and count are truthy the running total
grows by `mean * count` and the weighted mean is recomputed against the
already-updated count. -/
def updateAgg (a : EndpointAgg) (stats : SummaryStats) : EndpointAgg :=
  let newCount := a.count + jsOr stats.count 0
  if stats.mean ≠ 0 ∧ stats.count ≠ 0 then
    { a with
      count := newCount,
      totalResponseTime := a.totalResponseTime + stats.mean * stats.count,
      avgResponseTime := (a.totalResponseTime + stats.mean * stats.count) / newCount }
  else { a with count := newCount }

/-- One `forEach` body step of the `endpointSummary` reducer
(`ChartsSection.tsx` lines 214-249).  `parseURL` abstracts the platform
`new URL(...)` constructor of the browser, returning the `pathname` of the
parsed URL or `none` when the constructor throws (the `catch` branch the
specification describes as silent skipping). -/
def endpointStep (parseURL : String → Option String)
    (acc : List (String × EndpointAgg)) (kv : String × SummaryStats) :
    List (String × EndpointAgg) :=
  if pageUrlGuard kv.1 then
    match extractHttps kv.1 with
    | none => acc
    | some url =>
      match parseURL url with
      | none => acc
      | some pathname =>
        let endpoint := if strStarts pathname "/chat/" then "/chat/[id]"
          else if pathname = "" then "/" else pathname
        match acc.lookup endpoint with
        | some a => acc.map (fun p =>
            if p.1 = endpoint then (endpoint, updateAgg a kv.2) else p)
        | none => acc ++ [(endpoint, updateAgg ⟨endpoint, 0, 0, 0⟩ kv.2)]
  else acc

/-- `endpointSummary` from `ChartsSection.tsx` lines 213-251: fold of the
step over every summary of every interval record, accumulating an
insertion-ordered map from collapsed endpoint path to its aggregate row. -/
def endpointSummary (parseURL : String → Option String) (log : ArtilleryLog) :
    List (String × EndpointAgg) :=
  log.intermediate.foldl
    (fun acc entry => entry.summaries.foldl (endpointStep parseURL) acc) []

/-- `endpointSummaryData` from `ChartsSection.tsx` lines 253-255: rows with
positive count, sorted descending by `count || 0`. -/
def endpointSummaryData (parseURL : String → Option String) (log : ArtilleryLog) :
    List EndpointAgg :=
  (((endpointSummary parseURL log).map Prod.snd).filter
      (fun c => decide (0 < c.count))).mergeSort
    (fun a b => decide (jsOr b.count 0 ≤ jsOr a.count 0))

/-- A summary key the endpoint reducer skips: it passes the guard but its
embedded URL cannot be extracted or fails to parse. -/
def urlSkipped (parseURL : String → Option String) (key : String) : Bool :=
  pageUrlGuard key &&
    (match extractHttps key with
     | none => true
     | some url => (parseURL url).isNone)

/-- The log with every skipped summary key removed from every interval
record. -/
def removeUnparseable (parseURL : String → Option String) (log : ArtilleryLog) :
    ArtilleryLog :=
  { log with intermediate := log.intermediate.map (fun e =>
      { e with summaries := (e.summaries.filter (fun kv => !urlSkipped parseURL kv.1)) }) }

lemma endpointStep_skip (parseURL : String → Option String)
    (acc : List (String × EndpointAgg)) (kv : String × SummaryStats)
    (h : urlSkipped parseURL kv.1 = true) :
    endpointStep parseURL acc kv = acc := by
  unfold urlSkipped at h
  rcases (Bool.and_eq_true _ _).mp h with ⟨hg, hrest⟩
  unfold endpointStep
  rw [if_pos hg]
  cases hex : extractHttps kv.1 with
  | none => rfl
  | some url =>
    rw [hex] at hrest
    simp only [Option.isNone_iff_eq_none] at hrest
    simp [hrest]

lemma foldl_identity {α β : Type} (step : β → α → β) (l : List α)
    (h : ∀ x ∈ l, ∀ b, step b x = b) : ∀ b, l.foldl step b = b := by
  induction l with
  | nil => intro b; rfl
  | cons x t ih =>
    intro b
    rw [List.foldl_cons, h x (by simp) b]
    exact ih (fun y hy b => h y (by simp [hy]) b) b

lemma foldl_filter_skip {α β : Type} (step : β → α → β) (q : α → Bool)
    (hid : ∀ b x, q x = true → step b x = b) :
    ∀ (l : List α) (b : β), (l.filter (fun x => !q x)).foldl step b = l.foldl step b := by
  intro l
  induction l with
  | nil => intro b; rfl
  | cons x t ih =>
    intro b
    by_cases hq : q x = true
    · simp only [List.filter_cons, hq, Bool.not_true, List.foldl_cons, hid b x hq]
      exact ih b
    · have hq' : q x = false := Bool.eq_false_iff.mpr hq
      simp only [List.filter_cons, hq', Bool.not_false, List.foldl_cons]
      exact ih (step b x)

/-- C8: (a) summary keys whose embedded URL fails to extract or parse are
skipped silently — removing them from every interval record leaves the
endpoint summary unchanged; (b) with zero keys matching its key test every
breakdown reducer yields an empty sequence: the URL/endpoint breakdown is
empty when no counter key matches either branch, and the endpoint latency
summary is empty when no summary key passes the page-URL guard. -/
theorem url_skip_and_empty_reducers (parseURL : String → Option String)
    (log : ArtilleryLog) :
    endpointSummary parseURL (removeUnparseable parseURL log)
        = endpointSummary parseURL log
    ∧ ((∀ kv ∈ log.aggregate.counters,
          strStarts kv.1 "browser.page.codes." = false
            ∧ strStarts kv.1 "http.requests." = false) →
        urlRequestsData log = [])
    ∧ ((∀ e ∈ log.intermediate, ∀ kv ∈ e.summaries, pageUrlGuard kv.1 = false) →
        endpointSummaryData parseURL log = []) := by
  refine ⟨?_, ?_, ?_⟩
  · unfold endpointSummary removeUnparseable
    simp only [List.foldl_map]
    have hstep : (fun (acc : List (String × EndpointAgg)) (e : LogEntry) =>
          (e.summaries.filter (fun kv => !urlSkipped parseURL kv.1)).foldl
            (endpointStep parseURL) acc)
        = (fun acc e => e.summaries.foldl (endpointStep parseURL) acc) := by
      funext acc e
      exact foldl_filter_skip (endpointStep parseURL) (fun kv => urlSkipped parseURL kv.1)
        (fun b x hx => endpointStep_skip parseURL b x hx) e.summaries acc
    rw [hstep]
  · intro h
    have hb : ∀ kv ∈ log.aggregate.counters,
        strStarts kv.1 "browser.page.codes." = false := fun kv hkv => (h kv hkv).1
    have hh : ∀ kv ∈ log.aggregate.counters,
        (strStarts kv.1 "http.requests."
          && !strStarts kv.1 "http.requests.total") = false := by
      intro kv hkv
      simp [(h kv hkv).2]
    unfold urlRequestsData sortByCountDesc
    split
    · rw [List.filter_eq_nil_iff.mpr (by simpa using hb)]
      simp
    · rw [List.filter_eq_nil_iff.mpr (by simpa using hh)]
      simp
  · intro h
    have hsum : endpointSummary parseURL log = [] := by
      unfold endpointSummary
      apply foldl_identity
      intro e he acc
      apply foldl_identity
      intro kv hkv b
      have hg := h e he kv hkv
      unfold endpointStep
      simp [hg]
    simp [endpointSummaryData, hsum]

/-- Log with counters and summaries none of which match any reducer key
test. -/
def exLogC8 : ArtilleryLog :=
  ⟨[⟨[("vusers.created", 3)], [], 0, 0,
      [("vusers.session_length", statsAll 5 1)], []⟩],
   ⟨[("vusers.created", 3)], [], 0, 0, [], []⟩⟩

/-- C8 witness: the theorem applied at a concrete log with no matching keys
and at the always-failing URL parser. -/
theorem url_skip_and_empty_reducers_witness :
    urlRequestsData exLogC8 = []
    ∧ endpointSummaryData (fun _ => none) exLogC8 = [] :=
  ⟨(url_skip_and_empty_reducers (fun _ => none) exLogC8).2.1 (by decide),
   (url_skip_and_empty_reducers (fun _ => none) exLogC8).2.2 (by decide)⟩

end ALTRV
